import Mathlib

/-!
Shallow embedding of the booking core of the aden-car-wash server:
geospatial zone resolution (`src/server/src/handlers/get_zones.ts`),
rule-driven price calculation (`src/server/src/handlers/calculate_price.ts`)
and capacity-constrained time-slot availability
(`src/server/src/handlers/time_slots.ts`), together with theorems settling
the specification claims about them.

Conventions of the embedding:
- JS numbers are modelled as exact rationals (`ℚ`) for the data the program
  stores and exchanges, and as `ℝ` where the code computes with
  transcendental functions (the haversine distance).
- A database row set is a Lean list; a drizzle `select ... where` is a
  `List.filter` / `List.find?` over it.
- A stored JSON string field is modelled by the result of `JSON.parse` on
  it: `Option Json`, where `none` stands for a string on which `JSON.parse`
  throws (the surrounding `try/catch` of each handler is folded into the
  `Option`).
- Timestamps are integer minutes since an epoch that falls on local
  midnight; a calendar day is 1440 minutes and `Date.prototype.getHours` /
  `getMinutes` of an instant `t` correspond to `t % 1440` split into
  hours and minutes (sub-minute precision is not needed by any claim).
-/

namespace CarWash

/-! ## JSON values

`Json` is the result of a successful `JSON.parse`. Field access helpers
mirror how the handlers read parsed payloads. The handlers only ever do
arithmetic/comparisons with payload fields that hold numbers; a payload
field holding a *truthy non-number* would flow through JS coercion, which
is outside this model: the helpers treat such a field like a missing one
(this matches the code on every payload shape the repository stores or
tests). -/

inductive Json where
  | num (q : ℚ)
  | str (s : String)
  | jbool (b : Bool)
  | jnull
  | arr (elems : List Json)
  | obj (fields : List (String × Json))

/-- Object field access `j[k]`; `none` for a missing field or a non-object. -/
def Json.lookup : Json → String → Option Json
  | .obj fields, k => List.lookup k fields
  | _, _ => none

/-- JS truthiness of a parsed JSON value. -/
def Json.truthy : Json → Bool
  | .num q => decide (q ≠ 0)
  | .str s => decide (s ≠ "")
  | .jbool b => b
  | .jnull => false
  | .arr _ => true
  | .obj _ => true

/-- `j.type === s` for the string `type` tag of a geometry object. -/
def Json.typeIs (j : Json) (s : String) : Bool :=
  match j.lookup "type" with
  | some (.str t) => t == s
  | _ => false

/-- Numeric field access: `some q` when `j[k]` is the number `q`. -/
def Json.numField (j : Json) (k : String) : Option ℚ :=
  match j.lookup k with
  | some (.num q) => some q
  | _ => none

/-- JS `j[k] || dflt` for a numeric field: the field's value when it is a
number other than `0` (which is falsy), `dflt` otherwise. -/
def Json.numOr (j : Json) (k : String) (dflt : ℚ) : ℚ :=
  match j.numField k with
  | some q => if q = 0 then dflt else q
  | none => dflt

/-- Truthiness of the field `j[k]` (`false` when the field is absent,
matching `undefined`). -/
def Json.fieldTruthy (j : Json) (k : String) : Bool :=
  match j.lookup k with
  | some v => v.truthy
  | none => false

/-! ## Record types (from `src/server/src/db/schema.ts`)

Only the columns the three handlers read are carried; display columns
(slugs, bilingual names, ordering, visibility) do not influence any claim
and are omitted. `numeric` columns are `parseFloat`ed by the handlers, so
they appear here directly as `ℚ`. -/

structure Zone where
  id : ℤ
  polygon_or_center : Option Json

structure Service where
  id : ℤ
  base_price_team : ℚ
  base_price_solo : ℚ
  est_minutes : ℤ
  deriving Repr, DecidableEq

structure Addon where
  id : ℤ
  price : ℚ
  est_minutes : ℤ
  deriving Repr, DecidableEq

structure PricingRule where
  key : String
  value_json : Option Json
  enabled : Bool

inductive BookingStatus where
  | confirmed
  | on_the_way
  | started
  | finished
  | postponed
  | canceled
  deriving Repr, DecidableEq

structure Booking where
  id : ℤ
  zone_id : ℤ
  scheduled_window_start : ℤ
  scheduled_window_end : ℤ
  status : BookingStatus
  deriving Repr, DecidableEq

/-- The read-only store the handlers query. -/
structure Db where
  services : List Service
  addons : List Addon
  zones : List Zone
  pricingRules : List PricingRule
  bookings : List Booking

/-! ## Zone resolution (`get_zones.ts`) -/

/-- `toRadians` from `get_zones.ts`. -/
noncomputable def toRadians (degrees : ℝ) : ℝ :=
  degrees * (Real.pi / 180)

/-- JS `Math.atan2`. -/
noncomputable def atan2 (y x : ℝ) : ℝ :=
  if 0 < x then Real.arctan (y / x)
  else if x < 0 then
    if 0 ≤ y then Real.arctan (y / x) + Real.pi else Real.arctan (y / x) - Real.pi
  else if 0 < y then Real.pi / 2
  else if y < 0 then -(Real.pi / 2)
  else 0

/-- The intermediate `a` of the haversine formula in `calculateDistance`. -/
noncomputable def havA (lat1 lng1 lat2 lng2 : ℝ) : ℝ :=
  Real.sin (toRadians (lat2 - lat1) / 2) * Real.sin (toRadians (lat2 - lat1) / 2) +
    Real.cos (toRadians lat1) * Real.cos (toRadians lat2) *
      (Real.sin (toRadians (lng2 - lng1) / 2) * Real.sin (toRadians (lng2 - lng1) / 2))

/-- `calculateDistance` (haversine, Earth radius 6371 km), shared verbatim by
`get_zones.ts` and `calculate_price.ts`. -/
noncomputable def calculateDistance (lat1 lng1 lat2 lng2 : ℝ) : ℝ :=
  6371 * (2 * atan2 (Real.sqrt (havA lat1 lng1 lat2 lng2))
    (Real.sqrt (1 - havA lat1 lng1 lat2 lng2)))

/-- One iteration step of the ray-casting loop of `isPointInPolygon`: the
crossing test between the query point and the edge from vertex `vj` to
vertex `vi`. The edge contributes only when all four coordinates of the two
vertices are numbers: in JS a missing coordinate makes the second conjunct a
comparison with `NaN`, which is `false`. -/
def rayCastStep (lat lng : ℚ) (inside : Bool) (vi vj : Json) : Bool :=
  match vi.numField "lat", vi.numField "lng", vj.numField "lat", vj.numField "lng" with
  | some ilat, some ilng, some jlat, some jlng =>
    if (¬ ((lat < ilat) ↔ (lat < jlat))) ∧
        lng < (jlng - ilng) * (lat - ilat) / (jlat - ilat) + ilng then
      !inside
    else inside
  | _, _, _, _ => inside

/-- `isPointInPolygon` from `get_zones.ts` (ray casting over vertex pairs
`(i, j)` with `j` the predecessor of `i`, wrapping around). -/
def isPointInPolygonJ (lat lng : ℚ) (polygon : List Json) : Bool :=
  (polygon.zip (polygon.rotate (polygon.length - 1))).foldl
    (fun inside vij => rayCastStep lat lng inside vij.1 vij.2) false

/-- `isLocationInZone` from `get_zones.ts`: geometry dispatch on the parsed
`polygon_or_center` string. A parse failure (`none`) is caught and yields
`false`; a center geometry compares the haversine distance with
`geoData.radius || 10`; a missing center coordinate makes the JS comparison
`NaN <= r`, i.e. `false`. -/
noncomputable def isLocationInZone (lat lng : ℚ) (polygonOrCenter : Option Json) : Bool :=
  match polygonOrCenter with
  | none => false
  | some geoData =>
    if geoData.typeIs "center" then
      match geoData.numField "lat", geoData.numField "lng" with
      | some clat, some clng =>
        decide (calculateDistance lat lng clat clng ≤ ((geoData.numOr "radius" 10 : ℚ) : ℝ))
      | _, _ => false
    else if geoData.typeIs "polygon" && geoData.fieldTruthy "coordinates" then
      match geoData.lookup "coordinates" with
      | some (.arr coords) => isPointInPolygonJ lat lng coords
      | _ => false
    else false

/-- The zone iteration of `getZoneByLocation`: first zone whose geometry
contains the point. -/
noncomputable def findZoneLoop (lat lng : ℚ) : List Zone → Option Zone
  | [] => none
  | z :: rest =>
    if isLocationInZone lat lng z.polygon_or_center then some z
    else findZoneLoop lat lng rest

/-- `getZoneByLocation` from `get_zones.ts`. -/
noncomputable def getZoneByLocation (lat lng : ℚ) (db : Db) : Option Zone :=
  findZoneLoop lat lng db.zones

/-! ## Price calculation (`calculate_price.ts`) -/

inductive CarType where
  | sedan
  | suv
  | pickup
  deriving Repr, DecidableEq

/-- The key under which a car type is looked up in the
`car_type_multipliers` payload. -/
def CarType.fieldKey : CarType → String
  | .sedan => "sedan"
  | .suv => "suv"
  | .pickup => "pickup"

/-- `PriceCalculationInput`. -/
structure PriceInput where
  service_id : ℤ
  addons : List ℤ
  car_type : CarType
  zone_id : ℤ
  geo_lat : ℚ
  geo_lng : ℚ
  is_solo : Bool

/-- `PriceCalculationResult`. The monetary fields land in `ℝ` because
`distance_fee` (and hence `total_price`) can involve the haversine
distance. -/
structure PriceResult where
  base_price : ℝ
  addons_total : ℝ
  distance_fee : ℝ
  total_price : ℝ
  estimated_duration : ℤ

/-- The two `throw new Error(...)` outcomes of `calculatePrice`. -/
inductive PriceError where
  | serviceNotFound (id : ℤ)
  | zoneNotFound (id : ℤ)
  deriving Repr, DecidableEq

/-- The first enabled pricing rule under a key:
`select ... where key = k and enabled = true`, first row. -/
def firstEnabledRule (db : Db) (k : String) : Option PricingRule :=
  db.pricingRules.find? fun r => (r.key == k) && r.enabled

/-- The addon rows matching the requested ids:
`select ... where id in input.addons`. Each stored row is returned once,
regardless of duplicates among the requested ids, and unknown ids simply
match no row. -/
def foundAddons (db : Db) (ids : List ℤ) : List Addon :=
  db.addons.filter fun a => ids.contains a.id

/-- The `reduce` accumulating `total + parseFloat(addon.price)`. -/
def addonsSum (l : List Addon) : ℚ :=
  (l.map Addon.price).sum

/-- The `estimated_duration += addon.est_minutes` accumulation. -/
def addonsMinutes (l : List Addon) : ℤ :=
  (l.map Addon.est_minutes).sum

/-- Steps 4's fee formula applied to an already-computed distance:
`distance > (rule.free_radius_km || 5)` gates the fee
`(distance - (rule.free_radius_km || 5)) * (rule.fee_per_km || 5)`.
Generic in the field so that it can be evaluated exactly on `ℚ` and
composed with the real-valued haversine distance. -/
def feeGivenDistance {α : Type} [LinearOrderedField α] (rule : Json) (distance : α) : α :=
  let free : ℚ := rule.numOr "free_radius_km" 5
  let perKm : ℚ := rule.numOr "fee_per_km" 5
  if (free : α) < distance then (distance - (free : α)) * (perKm : α) else 0

/-- Step 4 of `calculatePrice`: the distance fee. `0` unless an enabled
`distance_fee` rule exists, its payload parses, the zone geometry parses
and exposes truthy numeric `lat`/`lng` center coordinates; otherwise the
fee formula on the haversine distance from the request point to that
center. (Any `JSON.parse` throw inside the block is caught and leaves the
fee at `0`.) -/
noncomputable def distanceFeeOf (db : Db) (zone : Zone) (glat glng : ℚ) : ℝ :=
  match firstEnabledRule db "distance_fee" with
  | none => 0
  | some rule =>
    match rule.value_json with
    | none => 0
    | some distanceRule =>
      match zone.polygon_or_center with
      | none => 0
      | some zoneCenter =>
        match zoneCenter.numField "lat", zoneCenter.numField "lng" with
        | some zlat, some zlng =>
          if zlat ≠ 0 ∧ zlng ≠ 0 then
            feeGivenDistance distanceRule (calculateDistance glat glng zlat zlng)
          else 0
        | _, _ => 0

/-- Step 5 of `calculatePrice`: `carTypeRule[input.car_type] || 1`, with
multiplier `1` when the rule is absent/disabled, its payload does not
parse, or the car-type key is missing (or `0`, which is falsy). -/
def carMultiplierOf (db : Db) (car_type : CarType) : ℚ :=
  match firstEnabledRule db "car_type_multipliers" with
  | none => 1
  | some rule =>
    match rule.value_json with
    | none => 1
    | some carTypeRule => carTypeRule.numOr car_type.fieldKey 1

/-- `calculatePrice` from `calculate_price.ts`. -/
noncomputable def calculatePrice (db : Db) (input : PriceInput) :
    Except PriceError PriceResult :=
  match db.services.find? (fun s => decide (s.id = input.service_id)) with
  | none => .error (.serviceNotFound input.service_id)
  | some service =>
    let base_price : ℚ :=
      if input.is_solo then service.base_price_solo else service.base_price_team
    let found := foundAddons db input.addons
    let addons_total : ℚ := addonsSum found
    let estimated_duration : ℤ := service.est_minutes + addonsMinutes found
    match db.zones.find? (fun z => decide (z.id = input.zone_id)) with
    | none => .error (.zoneNotFound input.zone_id)
    | some zone =>
      let distance_fee : ℝ := distanceFeeOf db zone input.geo_lat input.geo_lng
      let m : ℚ := carMultiplierOf db input.car_type
      let adjusted_base : ℚ := base_price * m
      let adjusted_addons : ℚ := addons_total * m
      .ok
        { base_price := (adjusted_base : ℝ)
          addons_total := (adjusted_addons : ℝ)
          distance_fee := distance_fee
          total_price := (adjusted_base : ℝ) + (adjusted_addons : ℝ) + distance_fee
          estimated_duration := estimated_duration }

/-! ## Time slots (`time_slots.ts`) -/

/-- Parsed `{ start: 'HH:MM', end: 'HH:MM' }` operating hours, as minutes
since midnight (`startHour * 60 + startMin`). -/
structure OperatingHours where
  startMin : ℤ
  endMin : ℤ
  deriving Repr, DecidableEq

/-- `DEFAULT_OPERATING_HOURS = { start: '08:00', end: '18:00' }`. -/
def DEFAULT_OPERATING_HOURS : OperatingHours :=
  { startMin := 480, endMin := 1080 }

def DEFAULT_TEAM_CAPACITY : ℕ := 3

def SLOT_WINDOW_MINUTES : ℤ := 90

def BUFFER_MINUTES : ℤ := 30

def SLOT_INTERVAL_MINUTES : ℤ := 60

/-- A produced `TimeSlot` (field `stop` is the source's `end`, a reserved
word in Lean). -/
structure TimeSlot where
  start : ℤ
  stop : ℤ
  available : Bool
  zone_id : ℤ
  deriving Repr, DecidableEq

/-- The thrown `Zone with ID ... not found` of `getAvailableTimeSlots`. -/
inductive SlotError where
  | zoneNotFound (id : ℤ)
  deriving Repr, DecidableEq

/-- `new Date(t).setHours(0,0,0,0)`: midnight of the day of `t`. -/
def dayStartOf (t : ℤ) : ℤ :=
  t - t.emod 1440

/-- `getHours() * 60 + getMinutes()` of an instant. -/
def wallMinutes (t : ℤ) : ℤ :=
  t.emod 1440

/-- The booking query of `getZoneSchedule`: confirmed bookings of the zone
whose `scheduled_window_start` lies between the day's start and end
(`between(scheduled_window_start, dayStart, dayEnd)`). -/
def bookingsForDay (db : Db) (zone_id : ℤ) (date : ℤ) : List Booking :=
  let dayStart := dayStartOf date
  let dayEnd := dayStart + 1439
  db.bookings.filter fun b =>
    decide (b.zone_id = zone_id) && decide (dayStart ≤ b.scheduled_window_start) &&
      decide (b.scheduled_window_start ≤ dayEnd) && decide (b.status = .confirmed)

/-- `ZoneSchedule` (booked slots reduced to their `(start, end)` windows,
the only parts `isSlotAvailable` reads). -/
structure ZoneSchedule where
  operating_hours : OperatingHours
  booked_slots : List (ℤ × ℤ)
  team_capacity : ℕ

/-- `getZoneSchedule` from `time_slots.ts`. -/
def getZoneSchedule (db : Db) (zone_id : ℤ) (date : ℤ) : ZoneSchedule :=
  { operating_hours := DEFAULT_OPERATING_HOURS
    booked_slots := (bookingsForDay db zone_id date).map fun b =>
      (b.scheduled_window_start, b.scheduled_window_end)
    team_capacity := DEFAULT_TEAM_CAPACITY }

/-- `generateTimeSlots`: windows `[t, t + W)` from the opening time,
stepped by `S`, while `t + W` stays within closing time. -/
def generateTimeSlots (date : ℤ) (oh : OperatingHours) : List (ℤ × ℤ) :=
  let first := dayStartOf date + oh.startMin
  let boundary := dayStartOf date + oh.endMin
  let n : ℕ :=
    if first + SLOT_WINDOW_MINUTES ≤ boundary then
      ((boundary - first - SLOT_WINDOW_MINUTES) / SLOT_INTERVAL_MINUTES).toNat + 1
    else 0
  (List.range n).map fun k =>
    (first + SLOT_INTERVAL_MINUTES * k, first + SLOT_INTERVAL_MINUTES * k + SLOT_WINDOW_MINUTES)

/-- `isTimeOverlap`: the strict half-open interval overlap test. -/
def isTimeOverlap (start1 end1 start2 end2 : ℤ) : Bool :=
  decide (start1 < end2) && decide (start2 < end1)

/-- `isSlotAvailable`: fewer overlapping booked slots than the team
capacity, and the service duration plus buffer fits in the window. -/
def isSlotAvailable (start stop : ℤ) (service_duration : ℤ)
    (booked_slots : List (ℤ × ℤ)) (team_capacity : ℕ) : Bool :=
  let overlapping := booked_slots.filter fun s => isTimeOverlap start stop s.1 s.2
  if team_capacity ≤ overlapping.length then false
  else if stop - start < service_duration + BUFFER_MINUTES then false
  else true

/-- `getAvailableTimeSlots` from `time_slots.ts`. -/
def getAvailableTimeSlots (db : Db) (zone_id : ℤ) (service_duration : ℤ)
    (date : ℤ) : Except SlotError (List TimeSlot) :=
  match db.zones.find? (fun z => decide (z.id = zone_id)) with
  | none => .error (.zoneNotFound zone_id)
  | some _ =>
    let schedule := getZoneSchedule db zone_id date
    let allSlots := generateTimeSlots date schedule.operating_hours
    .ok (allSlots.map fun s =>
      { start := s.1
        stop := s.2
        available := isSlotAvailable s.1 s.2 service_duration schedule.booked_slots
          schedule.team_capacity
        zone_id := zone_id })

/-- `getConflictingBookings`: confirmed bookings of the zone with
`scheduled_window_start <= end_time` and `scheduled_window_end >=
start_time` (the drizzle `lte`/`gte` pair — non-strict). -/
def getConflictingBookings (db : Db) (zone_id : ℤ) (start_time end_time : ℤ) :
    List Booking :=
  db.bookings.filter fun b =>
    decide (b.zone_id = zone_id) && decide (b.scheduled_window_start ≤ end_time) &&
      decide (start_time ≤ b.scheduled_window_end) && decide (b.status = .confirmed)

/-- `isWithinOperatingHours`: wall-clock containment of the window in the
operating hours. -/
def isWithinOperatingHours (start_time end_time : ℤ) (oh : OperatingHours) : Bool :=
  decide (oh.startMin ≤ wallMinutes start_time) && decide (wallMinutes end_time ≤ oh.endMin)

/-- `validateTimeSlot` from `time_slots.ts` (the spec's `isSlotFree`). -/
def validateTimeSlot (db : Db) (zone_id : ℤ) (start_time end_time : ℤ) : Bool :=
  match db.zones.find? (fun z => decide (z.id = zone_id)) with
  | none => false
  | some _ =>
    let schedule := getZoneSchedule db zone_id start_time
    if !isWithinOperatingHours start_time end_time schedule.operating_hours then false
    else if schedule.team_capacity ≤ (getConflictingBookings db zone_id start_time end_time).length
      then false
    else true

/-! ## Spec-side notions used to state the claims -/

/-- The count the spec's availability sentence speaks about: *all* confirmed
bookings of the zone overlapping the window (half-open overlap), with no
restriction to the queried day. -/
def overlappingConfirmedCount (db : Db) (zone_id start stop : ℤ) : ℕ :=
  (db.bookings.filter fun b =>
    decide (b.zone_id = zone_id) && decide (b.status = .confirmed) &&
      isTimeOverlap start stop b.scheduled_window_start b.scheduled_window_end).length

/-- The count the code actually uses: confirmed bookings of the zone whose
`scheduled_window_start` lies on the queried day, overlapping the window. -/
def overlappingConfirmedCountOnDay (db : Db) (zone_id date start stop : ℤ) : ℕ :=
  ((bookingsForDay db zone_id date).filter fun b =>
    isTimeOverlap start stop b.scheduled_window_start b.scheduled_window_end).length

/-- A `distance_fee` payload with the key names the spec's fee formula uses. -/
def distFeePayloadClaim (freeKm perKm maxFee : ℚ) : Json :=
  Json.obj [("max_free_distance_km", .num freeKm), ("fee_per_km", .num perKm),
    ("max_fee", .num maxFee)]

/-- A `distance_fee` payload with the key names `calculatePrice` reads
(`max_fee` kept present to show it is ignored). -/
def distFeePayloadCode (freeKm perKm maxFee : ℚ) : Json :=
  Json.obj [("free_radius_km", .num freeKm), ("fee_per_km", .num perKm),
    ("max_fee", .num maxFee)]

/-- A fully-populated center geometry (the stored key is `radius`, as the
repository's zone fixtures use). -/
def centerGeo (clat clng r : ℚ) : Json :=
  Json.obj [("type", .str "center"), ("lat", .num clat), ("lng", .num clng),
    ("radius", .num r)]

/-- The raw (pre-multiplier) base price step 1 of `calculatePrice` picks. -/
def rawBasePrice (service : Service) (input : PriceInput) : ℚ :=
  if input.is_solo then service.base_price_solo else service.base_price_team

/-- A parsed geometry conforming to the center shape the matcher can accept:
`type` tag `center` with numeric `lat`/`lng`. -/
def CenterShaped (j : Json) : Prop :=
  j.typeIs "center" = true ∧ (∃ q, j.numField "lat" = some q) ∧
    ∃ q, j.numField "lng" = some q

/-- A parsed geometry conforming to the polygon shape the matcher can
accept: `type` tag `polygon` with a truthy `coordinates` field. -/
def PolygonShaped (j : Json) : Prop :=
  j.typeIs "polygon" = true ∧ j.fieldTruthy "coordinates" = true

/-- Malformed geometry: the stored string does not parse, or parses to a
value conforming to neither of the two geometry shapes. -/
def MalformedGeo : Option Json → Prop
  | none => True
  | some j => ¬ CenterShaped j ∧ ¬ PolygonShaped j

/-! ## Concrete instances for counterexamples and witnesses -/

/-- A zone whose stored geometry string does not parse. -/
def zoneA : Zone :=
  { id := 1, polygon_or_center := none }

/-- A confirmed booking spanning 20:00 of day 0 to 10:00 of day 1. -/
def crossBooking (i : ℤ) : Booking :=
  { id := i, zone_id := 1, scheduled_window_start := 1200,
    scheduled_window_end := 2040, status := .confirmed }

/-- Store with three confirmed cross-midnight bookings in zone 1. -/
def dbC2 : Db :=
  { services := [], addons := [], zones := [zoneA], pricingRules := [],
    bookings := [crossBooking 1, crossBooking 2, crossBooking 3] }

/-- Store with zone 1 and no bookings at all. -/
def dbNoBookings : Db :=
  { services := [], addons := [], zones := [zoneA], pricingRules := [],
    bookings := [] }

/-- The slot listing produced for zone 1, duration 60, on day 1 (offset
1440), when no booking of day 1 exists. -/
def slotsC2 : List TimeSlot :=
  [⟨1920, 2010, true, 1⟩, ⟨1980, 2070, true, 1⟩, ⟨2040, 2130, true, 1⟩,
   ⟨2100, 2190, true, 1⟩, ⟨2160, 2250, true, 1⟩, ⟨2220, 2310, true, 1⟩,
   ⟨2280, 2370, true, 1⟩, ⟨2340, 2430, true, 1⟩, ⟨2400, 2490, true, 1⟩]

/-- A confirmed booking ending exactly where a validated window starts. -/
def bookingC4 : Booking :=
  { id := 1, zone_id := 1, scheduled_window_start := 500,
    scheduled_window_end := 600, status := .confirmed }

/-- Store containing only `bookingC4` in zone 1. -/
def dbC4 : Db :=
  { services := [], addons := [], zones := [zoneA], pricingRules := [],
    bookings := [bookingC4] }

/-- An entirely empty store. -/
def dbEmpty : Db :=
  { services := [], addons := [], zones := [], pricingRules := [], bookings := [] }

def svcBasic : Service :=
  { id := 1, base_price_team := 150, base_price_solo := 100, est_minutes := 45 }

def addonA : Addon :=
  { id := 1, price := 25, est_minutes := 15 }

def addonB : Addon :=
  { id := 2, price := 35, est_minutes := 15 }

/-- Store with one service, two addons, one zone and no pricing rules. -/
def dbPrice : Db :=
  { services := [svcBasic], addons := [addonA, addonB], zones := [zoneA],
    pricingRules := [], bookings := [] }

/-- The spec's worked pricing example: solo, both addons. -/
def inputBoth : PriceInput :=
  { service_id := 1, addons := [1, 2], car_type := .sedan, zone_id := 1,
    geo_lat := 0, geo_lng := 0, is_solo := true }

/-- Expected result for `inputBoth` on `dbPrice`. -/
def resBoth : PriceResult :=
  { base_price := 100, addons_total := 60, distance_fee := 0,
    total_price := 160, estimated_duration := 75 }

/-- Same request with no addons. -/
def inputNone : PriceInput :=
  { service_id := 1, addons := [], car_type := .sedan, zone_id := 1,
    geo_lat := 0, geo_lng := 0, is_solo := true }

/-- Expected result for `inputNone` on `dbPrice`. -/
def resNone : PriceResult :=
  { base_price := 100, addons_total := 0, distance_fee := 0,
    total_price := 100, estimated_duration := 45 }

/-- Expected result after adding addon 1 to `inputNone`. -/
def resOne : PriceResult :=
  { base_price := 100, addons_total := 25, distance_fee := 0,
    total_price := 125, estimated_duration := 60 }

/-- A polygon vertex object. -/
def vtx (la ln : ℚ) : Json :=
  Json.obj [("lat", .num la), ("lng", .num ln)]

/-- The spec's rectangular test polygon
(lat 26.4207..26.4507, lng 50.0888..50.1288). -/
def polyRect : Json :=
  Json.obj [("type", .str "polygon"),
    ("coordinates", .arr
      [vtx (264207/10000) (500888/10000), vtx (264207/10000) (501288/10000),
       vtx (264507/10000) (501288/10000), vtx (264507/10000) (500888/10000)])]

/-- A zone with the rectangular polygon geometry. -/
def zonePoly : Zone :=
  { id := 2, polygon_or_center := some polyRect }

/-! ## Scheduler lemmas -/

/-- Every generated slot window is exactly `SLOT_WINDOW_MINUTES` long. -/
lemma mem_generateTimeSlots_stop {date : ℤ} {oh : OperatingHours} {se : ℤ × ℤ}
    (h : se ∈ generateTimeSlots date oh) : se.2 = se.1 + SLOT_WINDOW_MINUTES := by
  simp only [generateTimeSlots, List.mem_map] at h
  obtain ⟨k, _, rfl⟩ := h
  rfl

/-- Unfolding of the availability test of `isSlotAvailable`. -/
lemma isSlotAvailable_iff (start stop D : ℤ) (bs : List (ℤ × ℤ)) (cap : ℕ) :
    isSlotAvailable start stop D bs cap = true ↔
      ((bs.filter fun s => isTimeOverlap start stop s.1 s.2).length < cap ∧
        D + BUFFER_MINUTES ≤ stop - start) := by
  unfold isSlotAvailable
  by_cases hcap : cap ≤ (bs.filter fun s => isTimeOverlap start stop s.1 s.2).length
  · rw [if_pos hcap]
    simp only [Bool.false_eq_true, false_iff, not_and]
    intro hlt
    omega
  · rw [if_neg hcap]
    by_cases hdur : stop - start < D + BUFFER_MINUTES
    · rw [if_pos hdur]
      simp only [Bool.false_eq_true, false_iff, not_and]
      intro _
      omega
    · rw [if_neg hdur]
      simp only [true_iff]
      exact ⟨by omega, by omega⟩

/-- The booked-slot pairs a schedule filters are in bijection with the
day's confirmed bookings they come from. -/
lemma booked_filter_eq (db : Db) (z date s e : ℤ) :
    ((getZoneSchedule db z date).booked_slots.filter fun p => isTimeOverlap s e p.1 p.2) =
      ((bookingsForDay db z date).filter fun b =>
        isTimeOverlap s e b.scheduled_window_start b.scheduled_window_end).map
        fun b => (b.scheduled_window_start, b.scheduled_window_end) := by
  unfold getZoneSchedule
  dsimp only
  rw [List.filter_map]
  rfl

/-! ## Claim C2 -/

/--
C2 counterexample. The claim reads the availability test as counting *all*
confirmed bookings of the zone that overlap the slot, but `getZoneSchedule`
only fetches bookings whose `scheduled_window_start` lies on the queried
day. With three confirmed bookings running from day 0, 20:00 into day 1,
10:00, the day-1 slot 08:00–09:30 overlaps all three (capacity 3), yet the
code returns it as `available = true`.
-/
theorem C2_counterexample :
    getAvailableTimeSlots dbC2 1 60 1440 = .ok slotsC2 ∧
      (⟨1920, 2010, true, 1⟩ : TimeSlot) ∈ slotsC2 ∧
      (⟨1920, 2010, true, 1⟩ : TimeSlot).available = true ∧
      ¬ (overlappingConfirmedCount dbC2 1 1920 2010 < DEFAULT_TEAM_CAPACITY) :=
  ⟨rfl, by decide, rfl, by decide⟩

/--
C2 (amended): each slot returned by `getAvailableTimeSlots` is marked
available iff the number of confirmed bookings of that zone *whose start
lies on the queried day* overlapping the slot is strictly below the team
capacity, and the requested duration plus buffer fits in the window
length; in particular `D + B > W` makes every returned slot unavailable.
-/
theorem C2_amended :
    ∀ (db : Db) (zone_id D date : ℤ) (slots : List TimeSlot) (slot : TimeSlot),
      getAvailableTimeSlots db zone_id D date = .ok slots → slot ∈ slots →
      (slot.available = true ↔
        (overlappingConfirmedCountOnDay db zone_id date slot.start slot.stop <
            DEFAULT_TEAM_CAPACITY ∧
          D + BUFFER_MINUTES ≤ SLOT_WINDOW_MINUTES)) := by
  intro db z D date slots slot hok hmem
  cases hz : db.zones.find? (fun x => decide (x.id = z)) with
  | none =>
    unfold getAvailableTimeSlots at hok
    rw [hz] at hok
    exact absurd hok (by simp)
  | some zz =>
    unfold getAvailableTimeSlots at hok
    rw [hz] at hok
    simp only [Except.ok.injEq] at hok
    subst hok
    obtain ⟨se, hse, rfl⟩ := List.mem_map.mp hmem
    have hstop : se.2 - se.1 = SLOT_WINDOW_MINUTES := by
      rw [mem_generateTimeSlots_stop hse]
      ring
    dsimp only
    rw [isSlotAvailable_iff, booked_filter_eq, List.length_map, hstop]
    rfl

/--
Witness for `C2_amended`: on a store with no bookings the first day-1
slot is available, and the theorem's equivalence holds for it.
-/
theorem C2_witness :
    (getAvailableTimeSlots dbNoBookings 1 60 1440 = .ok slotsC2 ∧
        (⟨1920, 2010, true, 1⟩ : TimeSlot) ∈ slotsC2) ∧
      ((⟨1920, 2010, true, 1⟩ : TimeSlot).available = true ↔
        (overlappingConfirmedCountOnDay dbNoBookings 1 1440 1920 2010 <
            DEFAULT_TEAM_CAPACITY ∧
          60 + BUFFER_MINUTES ≤ SLOT_WINDOW_MINUTES)) :=
  ⟨⟨rfl, by decide⟩,
    C2_amended dbNoBookings 1 60 1440 slotsC2 ⟨1920, 2010, true, 1⟩ rfl (by decide)⟩

/-! ## Claim C4 -/

/--
C4 counterexample. `getConflictingBookings` (the conflict test behind
`validateTimeSlot`) uses the non-strict `lte`/`gte` pair, so a confirmed
booking ending exactly at the validated window's start (600) is counted as
conflicting even though the strict half-open test `start1 < end2 && start2
< end1` used for generated slots rejects it — the two operations do not
agree on which bookings occupy the window.
-/
theorem C4_counterexample :
    ¬ (bookingC4 ∈ getConflictingBookings dbC4 1 600 690 ↔
        (bookingC4 ∈ dbC4.bookings ∧ bookingC4.zone_id = 1 ∧
          bookingC4.status = .confirmed ∧
          isTimeOverlap 600 690 bookingC4.scheduled_window_start
            bookingC4.scheduled_window_end = true)) := by
  decide

/--
C4 (amended): `validateTimeSlot` counts a booking as conflicting exactly
when it is a confirmed booking of the zone with
`scheduled_window_start ≤ window end` and `window start ≤
scheduled_window_end` — a non-strict test that includes every booking the
strict half-open test of the generated-slot path accepts, but also
bookings merely touching the window boundary.
-/
theorem C4_amended :
    (∀ (db : Db) (zone_id s e : ℤ) (b : Booking),
        b ∈ getConflictingBookings db zone_id s e ↔
          (b ∈ db.bookings ∧ b.zone_id = zone_id ∧ b.status = .confirmed ∧
            b.scheduled_window_start ≤ e ∧ s ≤ b.scheduled_window_end)) ∧
      (∀ s e s2 e2 : ℤ, isTimeOverlap s e s2 e2 = true → s2 ≤ e ∧ s ≤ e2) := by
  constructor
  · intro db zone_id s e b
    unfold getConflictingBookings
    rw [List.mem_filter]
    simp only [Bool.and_eq_true, decide_eq_true_eq]
    tauto
  · intro s e s2 e2 h
    unfold isTimeOverlap at h
    simp only [Bool.and_eq_true, decide_eq_true_eq] at h
    omega

/-- Witness for `C4_amended`: a strictly overlapping booking window. -/
theorem C4_witness :
    isTimeOverlap 0 90 60 120 = true ∧ ((60 : ℤ) ≤ 90 ∧ (0 : ℤ) ≤ 120) :=
  ⟨by decide, C4_amended.2 0 90 60 120 (by decide)⟩

/-! ## Claim C7 -/

/--
C7: for a zone id with no matching zone record, `getAvailableTimeSlots`
fails with the zone-not-found error, while `validateTimeSlot` returns
`false` instead of failing.
-/
theorem C7_confirmed :
    ∀ (db : Db) (zone_id service_duration date start_time end_time : ℤ),
      db.zones.find? (fun z => decide (z.id = zone_id)) = none →
      getAvailableTimeSlots db zone_id service_duration date =
          .error (.zoneNotFound zone_id) ∧
        validateTimeSlot db zone_id start_time end_time = false := by
  intro db zone_id service_duration date start_time end_time h
  constructor
  · unfold getAvailableTimeSlots
    rw [h]
  · unfold validateTimeSlot
    rw [h]

/-- Witness for `C7_confirmed`: the empty store has no zone 7. -/
theorem C7_witness :
    dbEmpty.zones.find? (fun z => decide (z.id = 7)) = none ∧
      getAvailableTimeSlots dbEmpty 7 60 0 = .error (.zoneNotFound 7) ∧
      validateTimeSlot dbEmpty 7 480 570 = false :=
  ⟨rfl, C7_confirmed dbEmpty 7 60 0 480 570 rfl⟩

/-! ## Claim C10 -/

/--
C10: for an existing zone, `validateTimeSlot` returns `false` whenever the
window's wall-clock start is before the 08:00 opening or its wall-clock
end is after the 18:00 closing, regardless of the store's bookings.
-/
theorem C10_confirmed :
    ∀ (db : Db) (zone_id start_time end_time : ℤ) (z : Zone),
      db.zones.find? (fun zz => decide (zz.id = zone_id)) = some z →
      (wallMinutes start_time < DEFAULT_OPERATING_HOURS.startMin ∨
        DEFAULT_OPERATING_HOURS.endMin < wallMinutes end_time) →
      validateTimeSlot db zone_id start_time end_time = false := by
  intro db zone_id start_time end_time z hz hout
  have hop : isWithinOperatingHours start_time end_time DEFAULT_OPERATING_HOURS = false := by
    unfold isWithinOperatingHours
    rcases hout with h | h
    · have hd : decide (DEFAULT_OPERATING_HOURS.startMin ≤ wallMinutes start_time) = false := by
        simp only [decide_eq_false_iff_not, not_le]
        exact h
      rw [hd, Bool.false_and]
    · have hd : decide (wallMinutes end_time ≤ DEFAULT_OPERATING_HOURS.endMin) = false := by
        simp only [decide_eq_false_iff_not, not_le]
        exact h
      rw [hd, Bool.and_false]
  unfold validateTimeSlot
  rw [hz]
  dsimp only [getZoneSchedule]
  rw [hop]
  rfl

/-- Witness for `C10_confirmed`: a 07:00–09:00 window on an existing zone
with no bookings at all. -/
theorem C10_witness :
    dbNoBookings.zones.find? (fun zz => decide (zz.id = 1)) = some zoneA ∧
      (wallMinutes 420 < DEFAULT_OPERATING_HOURS.startMin ∨
        DEFAULT_OPERATING_HOURS.endMin < wallMinutes 540) ∧
      validateTimeSlot dbNoBookings 1 420 540 = false :=
  ⟨rfl, Or.inl (by decide),
    C10_confirmed dbNoBookings 1 420 540 zoneA rfl (Or.inl (by decide))⟩

/-! ## Pricing lemmas -/

/-- `calculatePrice` fails when the service lookup is empty. -/
lemma calculatePrice_error_service (db : Db) (input : PriceInput)
    (hs : db.services.find? (fun s => decide (s.id = input.service_id)) = none) :
    calculatePrice db input = .error (.serviceNotFound input.service_id) := by
  unfold calculatePrice
  rw [hs]

/-- `calculatePrice` fails when the zone lookup is empty. -/
lemma calculatePrice_error_zone (db : Db) (input : PriceInput) (service : Service)
    (hs : db.services.find? (fun s => decide (s.id = input.service_id)) = some service)
    (hz : db.zones.find? (fun z => decide (z.id = input.zone_id)) = none) :
    calculatePrice db input = .error (.zoneNotFound input.zone_id) := by
  unfold calculatePrice
  rw [hs, hz]

/-- Characterization of a successful `calculatePrice` run. -/
lemma calculatePrice_ok_char (db : Db) (input : PriceInput) (service : Service)
    (zone : Zone)
    (hs : db.services.find? (fun s => decide (s.id = input.service_id)) = some service)
    (hz : db.zones.find? (fun z => decide (z.id = input.zone_id)) = some zone) :
    calculatePrice db input = .ok
      { base_price :=
          ((rawBasePrice service input * carMultiplierOf db input.car_type : ℚ) : ℝ)
        addons_total :=
          ((addonsSum (foundAddons db input.addons) *
            carMultiplierOf db input.car_type : ℚ) : ℝ)
        distance_fee := distanceFeeOf db zone input.geo_lat input.geo_lng
        total_price :=
          ((rawBasePrice service input * carMultiplierOf db input.car_type : ℚ) : ℝ) +
            ((addonsSum (foundAddons db input.addons) *
              carMultiplierOf db input.car_type : ℚ) : ℝ) +
            distanceFeeOf db zone input.geo_lat input.geo_lng
        estimated_duration :=
          service.est_minutes + addonsMinutes (foundAddons db input.addons) } := by
  unfold calculatePrice
  rw [hs, hz]
  rfl

/-- Evaluation of the spec's worked example: solo service with both addons,
no pricing rules configured. -/
lemma calcPrice_dbPrice_both : calculatePrice dbPrice inputBoth = .ok resBoth := by
  rw [calculatePrice_ok_char dbPrice inputBoth svcBasic zoneA rfl rfl]
  have e1 : rawBasePrice svcBasic inputBoth = 100 := rfl
  have e2 : carMultiplierOf dbPrice inputBoth.car_type = 1 := rfl
  have e3 : foundAddons dbPrice inputBoth.addons = [addonA, addonB] := rfl
  have e4 : distanceFeeOf dbPrice zoneA inputBoth.geo_lat inputBoth.geo_lng = 0 := rfl
  rw [e1, e2, e3, e4]
  unfold resBoth
  simp only [Except.ok.injEq, PriceResult.mk.injEq]
  norm_num [addonsSum, addonsMinutes, addonA, addonB, svcBasic]

/-- Evaluation of the no-addons request. -/
lemma calcPrice_dbPrice_none : calculatePrice dbPrice inputNone = .ok resNone := by
  rw [calculatePrice_ok_char dbPrice inputNone svcBasic zoneA rfl rfl]
  have e1 : rawBasePrice svcBasic inputNone = 100 := rfl
  have e2 : carMultiplierOf dbPrice inputNone.car_type = 1 := rfl
  have e3 : foundAddons dbPrice inputNone.addons = [] := rfl
  have e4 : distanceFeeOf dbPrice zoneA inputNone.geo_lat inputNone.geo_lng = 0 := rfl
  rw [e1, e2, e3, e4]
  unfold resNone
  simp only [Except.ok.injEq, PriceResult.mk.injEq]
  norm_num [addonsSum, addonsMinutes, svcBasic]

/-- Evaluation of the request with addon 1 added to the empty addon list. -/
lemma calcPrice_dbPrice_one :
    calculatePrice dbPrice { inputNone with addons := addonA.id :: inputNone.addons } =
      .ok resOne := by
  rw [calculatePrice_ok_char dbPrice { inputNone with addons := addonA.id :: inputNone.addons }
    svcBasic zoneA rfl rfl]
  have e1 : rawBasePrice svcBasic { inputNone with addons := addonA.id :: inputNone.addons } =
      100 := rfl
  have e2 : carMultiplierOf dbPrice
      ({ inputNone with addons := addonA.id :: inputNone.addons } : PriceInput).car_type = 1 := rfl
  have e3 : foundAddons dbPrice
      ({ inputNone with addons := addonA.id :: inputNone.addons } : PriceInput).addons =
      [addonA] := rfl
  have e4 : distanceFeeOf dbPrice zoneA inputNone.geo_lat inputNone.geo_lng = 0 := rfl
  rw [e1, e2, e3]
  rw [show distanceFeeOf dbPrice zoneA
      ({ inputNone with addons := addonA.id :: inputNone.addons } : PriceInput).geo_lat
      ({ inputNone with addons := addonA.id :: inputNone.addons } : PriceInput).geo_lng = 0
    from e4]
  unfold resOne
  simp only [Except.ok.injEq, PriceResult.mk.injEq]
  norm_num [addonsSum, addonsMinutes, addonA, svcBasic]

/-! ## Claim C1 -/

/--
C1 counterexample. For an enabled `distance_fee` rule whose payload carries
the spec's keys `max_free_distance_km: 5, fee_per_km: 2.5, max_fee: 50`,
the code computes fee `62.5` at distance `30` — not the claimed
`min(max_fee, (d - max_free_distance_km) * fee_per_km) = 50`: the code
reads the key `free_radius_km` (absent here, so it defaults to `5`) and
applies no `max_fee` cap at all.
-/
theorem C1_counterexample :
    ¬ (feeGivenDistance (distFeePayloadClaim 5 (5/2) 50) (30 : ℚ) =
        if (30 : ℚ) ≤ 5 then 0 else min 50 ((30 - 5) * (5/2))) := by
  have hN : (distFeePayloadClaim 5 (5/2) 50).numField "free_radius_km" = none := rfl
  have hK : (distFeePayloadClaim 5 (5/2) 50).numField "fee_per_km" = some (5/2) := rfl
  have hfree : (distFeePayloadClaim 5 (5/2) 50).numOr "free_radius_km" 5 = 5 := by
    unfold Json.numOr
    rw [hN]
  have hper : (distFeePayloadClaim 5 (5/2) 50).numOr "fee_per_km" 5 = 5/2 := by
    unfold Json.numOr
    rw [hK]
    norm_num
  have hfee : feeGivenDistance (distFeePayloadClaim 5 (5/2) 50) (30 : ℚ) = 125/2 := by
    simp only [feeGivenDistance]
    rw [hfree, hper]
    simp only [Rat.cast_id]
    norm_num
  rw [hfee]
  norm_num [min_def]

/--
C1 (amended): the payload keys `calculatePrice` reads are `free_radius_km`
(default `5` when absent or `0`) and `fee_per_km` (default `5` when absent
or `0`); for distance `d` the fee is `0` when `d ≤ free_radius_km` and
`(d - free_radius_km) * fee_per_km` otherwise, with **no** `max_fee` cap
(`max_fee` is ignored); with no enabled `distance_fee` rule the returned
`distance_fee` is `0`.
-/
theorem C1_amended :
    (∀ freeKm perKm maxFee d : ℚ, freeKm ≠ 0 → perKm ≠ 0 →
        feeGivenDistance (distFeePayloadCode freeKm perKm maxFee) d =
          if d ≤ freeKm then 0 else (d - freeKm) * perKm) ∧
      (∀ (db : Db) (input : PriceInput) (res : PriceResult),
        firstEnabledRule db "distance_fee" = none →
        calculatePrice db input = .ok res → res.distance_fee = 0) := by
  constructor
  · intro f k m d hf hk
    have h1 : (distFeePayloadCode f k m).numField "free_radius_km" = some f := rfl
    have h2 : (distFeePayloadCode f k m).numField "fee_per_km" = some k := rfl
    have hfree : (distFeePayloadCode f k m).numOr "free_radius_km" 5 = f := by
      unfold Json.numOr
      rw [h1]
      exact if_neg hf
    have hper : (distFeePayloadCode f k m).numOr "fee_per_km" 5 = k := by
      unfold Json.numOr
      rw [h2]
      exact if_neg hk
    simp only [feeGivenDistance]
    rw [hfree, hper]
    simp only [Rat.cast_id]
    rcases le_or_lt d f with h | h
    · rw [if_neg (not_lt.mpr h), if_pos h]
    · rw [if_pos h, if_neg (not_le.mpr h)]
  · intro db input res hrule hok
    cases hs : db.services.find? (fun s => decide (s.id = input.service_id)) with
    | none =>
      rw [calculatePrice_error_service db input hs] at hok
      exact absurd hok (by simp)
    | some service =>
      cases hz : db.zones.find? (fun z => decide (z.id = input.zone_id)) with
      | none =>
        rw [calculatePrice_error_zone db input service hs hz] at hok
        exact absurd hok (by simp)
      | some zone =>
        rw [calculatePrice_ok_char db input service zone hs hz] at hok
        simp only [Except.ok.injEq] at hok
        subst hok
        dsimp only
        unfold distanceFeeOf
        rw [hrule]

/-- Witness for `C1_amended`: the spec's own uncapped example, fee `17.5`
at distance `12`, and a rule-free store yielding fee `0`. -/
theorem C1_witness :
    feeGivenDistance (distFeePayloadCode 5 (5/2) 50) (12 : ℚ) = 35/2 ∧
      resBoth.distance_fee = 0 := by
  constructor
  · rw [C1_amended.1 5 (5/2) 50 12 (by norm_num) (by norm_num)]
    norm_num
  · exact C1_amended.2 dbPrice inputBoth resBoth rfl calcPrice_dbPrice_both

/-! ## Claim C5 -/

/--
C5: on success, `total_price = base * multiplier + addons_total *
multiplier + distance_fee`, the car-type multiplier never touching the
distance fee; the multiplier is `1` when the `car_type_multipliers` rule is
absent, disabled (never selected by the enabled-only query), unparseable,
or missing the requested car-type key.
-/
theorem C5_confirmed :
    (∀ (db : Db) (input : PriceInput) (res : PriceResult) (service : Service),
        db.services.find? (fun s => decide (s.id = input.service_id)) = some service →
        calculatePrice db input = .ok res →
        res.total_price =
          (rawBasePrice service input : ℝ) * (carMultiplierOf db input.car_type : ℝ) +
            (addonsSum (foundAddons db input.addons) : ℝ) *
              (carMultiplierOf db input.car_type : ℝ) +
            res.distance_fee) ∧
      (∀ (db : Db) (ct : CarType),
        firstEnabledRule db "car_type_multipliers" = none → carMultiplierOf db ct = 1) ∧
      (∀ (db : Db) (ct : CarType) (rule : PricingRule),
        firstEnabledRule db "car_type_multipliers" = some rule → rule.value_json = none →
        carMultiplierOf db ct = 1) ∧
      (∀ (db : Db) (ct : CarType) (rule : PricingRule) (j : Json),
        firstEnabledRule db "car_type_multipliers" = some rule → rule.value_json = some j →
        j.numField ct.fieldKey = none → carMultiplierOf db ct = 1) ∧
      (∀ (db : Db) (ct : CarType),
        (∀ r ∈ db.pricingRules, r.key = "car_type_multipliers" → r.enabled = false) →
        carMultiplierOf db ct = 1) := by
  refine ⟨?_, ?_, ?_, ?_, ?_⟩
  · intro db input res service hs hok
    cases hz : db.zones.find? (fun z => decide (z.id = input.zone_id)) with
    | none =>
      rw [calculatePrice_error_zone db input service hs hz] at hok
      exact absurd hok (by simp)
    | some zone =>
      rw [calculatePrice_ok_char db input service zone hs hz] at hok
      simp only [Except.ok.injEq] at hok
      subst hok
      dsimp only
      push_cast
      ring
  · intro db ct h
    unfold carMultiplierOf
    rw [h]
  · intro db ct rule h hjson
    unfold carMultiplierOf
    rw [h]
    show (match rule.value_json with
      | none => (1 : ℚ)
      | some carTypeRule => carTypeRule.numOr ct.fieldKey 1) = (1 : ℚ)
    rw [hjson]
  · intro db ct rule j h hjson hfield
    unfold carMultiplierOf
    rw [h]
    show (match rule.value_json with
      | none => (1 : ℚ)
      | some carTypeRule => carTypeRule.numOr ct.fieldKey 1) = (1 : ℚ)
    rw [hjson]
    show Json.numOr j ct.fieldKey 1 = 1
    unfold Json.numOr
    rw [hfield]
  · intro db ct h
    have hnone : firstEnabledRule db "car_type_multipliers" = none := by
      unfold firstEnabledRule
      rw [List.find?_eq_none]
      intro r hr
      simp only [Bool.and_eq_true, beq_iff_eq, not_and]
      intro hk
      rw [h r hr hk]
      simp
    unfold carMultiplierOf
    rw [hnone]

/-- Witness for `C5_confirmed`: the spec's worked example (`base = 100`,
`addons_total = 60`, `total = 160`, no rules, multiplier defaults to 1). -/
theorem C5_witness :
    calculatePrice dbPrice inputBoth = .ok resBoth ∧
      resBoth.total_price =
        (rawBasePrice svcBasic inputBoth : ℝ) *
            (carMultiplierOf dbPrice inputBoth.car_type : ℝ) +
          (addonsSum (foundAddons dbPrice inputBoth.addons) : ℝ) *
            (carMultiplierOf dbPrice inputBoth.car_type : ℝ) +
          resBoth.distance_fee :=
  ⟨calcPrice_dbPrice_both,
    C5_confirmed.1 dbPrice inputBoth resBoth svcBasic rfl calcPrice_dbPrice_both⟩

/-! ## Claim C6 -/

/--
C6: an addon id with no matching record never makes `calculatePrice` fail —
adding it to the request leaves the whole result (success or failure)
unchanged — and on success the addons total and the addon contribution to
the estimated duration are the sums over exactly the addon ids that were
found (the total additionally scaled by the car-type multiplier, the
duration not).
-/
theorem C6_confirmed :
    (∀ (db : Db) (input : PriceInput) (i : ℤ),
        db.addons.find? (fun a => decide (a.id = i)) = none →
        calculatePrice db { input with addons := i :: input.addons } =
          calculatePrice db input) ∧
      (∀ (db : Db) (input : PriceInput) (res : PriceResult) (service : Service),
        db.services.find? (fun s => decide (s.id = input.service_id)) = some service →
        calculatePrice db input = .ok res →
        res.addons_total =
            (addonsSum (foundAddons db input.addons) : ℝ) *
              (carMultiplierOf db input.car_type : ℝ) ∧
          res.estimated_duration =
            service.est_minutes + addonsMinutes (foundAddons db input.addons)) := by
  constructor
  · intro db input i hnone
    have hfa : foundAddons db (i :: input.addons) = foundAddons db input.addons := by
      unfold foundAddons
      apply List.filter_congr
      intro a ha
      have hne : ¬ a.id = i := by
        have h2 := List.find?_eq_none.mp hnone a ha
        simpa using h2
      simp [List.contains_cons, hne]
    unfold calculatePrice
    dsimp only
    rw [hfa]
  · intro db input res service hs hok
    cases hz : db.zones.find? (fun z => decide (z.id = input.zone_id)) with
    | none =>
      rw [calculatePrice_error_zone db input service hs hz] at hok
      exact absurd hok (by simp)
    | some zone =>
      rw [calculatePrice_ok_char db input service zone hs hz] at hok
      simp only [Except.ok.injEq] at hok
      subst hok
      constructor
      · dsimp only
        push_cast
        ring
      · rfl

/-- Witness for `C6_confirmed`: adding the unknown addon id 999 to the
spec's worked example changes nothing, and the sums range over the two
found addons only. -/
theorem C6_witness :
    calculatePrice dbPrice { inputBoth with addons := 999 :: inputBoth.addons } =
        calculatePrice dbPrice inputBoth ∧
      resBoth.addons_total =
          (addonsSum (foundAddons dbPrice inputBoth.addons) : ℝ) *
            (carMultiplierOf dbPrice inputBoth.car_type : ℝ) ∧
        resBoth.estimated_duration =
          svcBasic.est_minutes + addonsMinutes (foundAddons dbPrice inputBoth.addons) :=
  ⟨C6_confirmed.1 dbPrice inputBoth 999 rfl,
    C6_confirmed.2 dbPrice inputBoth resBoth svcBasic rfl calcPrice_dbPrice_both⟩

/-! ## Claim C9 -/

/--
C9: under well-formed configuration (non-negative addon prices and a
non-negative effective car-type multiplier), adding one existing addon id
to a successful price request never decreases `total_price`; and the fee
computed from a rule payload is a monotone non-decreasing function of the
distance whenever the effective per-km parameter is non-negative.
-/
theorem C9_confirmed :
    (∀ (db : Db) (input : PriceInput) (a : Addon) (res res2 : PriceResult),
        a ∈ db.addons →
        (∀ x ∈ db.addons, 0 ≤ x.price) →
        0 ≤ carMultiplierOf db input.car_type →
        calculatePrice db input = .ok res →
        calculatePrice db { input with addons := a.id :: input.addons } = .ok res2 →
        res.total_price ≤ res2.total_price) ∧
      (∀ (rule : Json) (d1 d2 : ℝ),
        0 ≤ rule.numOr "fee_per_km" 5 → d1 ≤ d2 →
        feeGivenDistance rule d1 ≤ feeGivenDistance rule d2) := by
  constructor
  · intro db input a res res2 hmem hpr hmul h1 h2
    cases hs : db.services.find? (fun s => decide (s.id = input.service_id)) with
    | none =>
      rw [calculatePrice_error_service db input hs] at h1
      exact absurd h1 (by simp)
    | some service =>
      cases hz : db.zones.find? (fun z => decide (z.id = input.zone_id)) with
      | none =>
        rw [calculatePrice_error_zone db input service hs hz] at h1
        exact absurd h1 (by simp)
      | some zone =>
        rw [calculatePrice_ok_char db input service zone hs hz] at h1
        rw [calculatePrice_ok_char db { input with addons := a.id :: input.addons }
          service zone hs hz] at h2
        simp only [Except.ok.injEq] at h1 h2
        subst h1
        subst h2
        dsimp only
        have hsum : addonsSum (foundAddons db input.addons) ≤
            addonsSum (foundAddons db (a.id :: input.addons)) := by
          unfold addonsSum foundAddons
          apply List.Sublist.sum_le_sum
          · apply List.Sublist.map
            apply List.monotone_filter_right
            intro x hx
            simp only [List.contains_cons, Bool.or_eq_true]
            exact Or.inr hx
          · intro q hq
            obtain ⟨ad, had, rfl⟩ := List.mem_map.mp hq
            exact hpr ad (List.mem_filter.mp had).1
        have hmm := mul_le_mul_of_nonneg_right hsum hmul
        have hcast :
            ((addonsSum (foundAddons db input.addons) *
              carMultiplierOf db input.car_type : ℚ) : ℝ) ≤
              ((addonsSum (foundAddons db (a.id :: input.addons)) *
                carMultiplierOf db input.car_type : ℚ) : ℝ) := by
          exact_mod_cast hmm
        have hraw : rawBasePrice service { input with addons := a.id :: input.addons } =
            rawBasePrice service input := rfl
        rw [hraw]
        linarith
  · intro rule d1 d2 hk hd
    have hk2 : ((rule.numOr "fee_per_km" 5 : ℚ) : ℝ) ≥ 0 := by exact_mod_cast hk
    simp only [feeGivenDistance]
    by_cases h1 : ((rule.numOr "free_radius_km" 5 : ℚ) : ℝ) < d1
    · rw [if_pos h1, if_pos (lt_of_lt_of_le h1 hd)]
      apply mul_le_mul_of_nonneg_right _ hk2
      linarith
    · rw [if_neg h1]
      by_cases h2 : ((rule.numOr "free_radius_km" 5 : ℚ) : ℝ) < d2
      · rw [if_pos h2]
        apply mul_nonneg _ hk2
        linarith
      · rw [if_neg h2]

/-- Witness for `C9_confirmed`: adding addon 1 (price 25) to the no-addon
request raises the total from 100 to 125; and the fee at distance 2 is at
most the fee at distance 3. -/
theorem C9_witness :
    (addonA ∈ dbPrice.addons ∧ (∀ x ∈ dbPrice.addons, 0 ≤ x.price) ∧
        0 ≤ carMultiplierOf dbPrice inputNone.car_type ∧
        resNone.total_price ≤ resOne.total_price) ∧
      ((0 : ℚ) ≤ (distFeePayloadCode 5 3 50).numOr "fee_per_km" 5 ∧
        feeGivenDistance (distFeePayloadCode 5 3 50) (2 : ℝ) ≤
          feeGivenDistance (distFeePayloadCode 5 3 50) (3 : ℝ)) := by
  have hk : (distFeePayloadCode 5 3 50).numField "fee_per_km" = some 3 := rfl
  have hk2 : (0 : ℚ) ≤ (distFeePayloadCode 5 3 50).numOr "fee_per_km" 5 := by
    unfold Json.numOr
    rw [hk]
    norm_num
  refine ⟨⟨by simp [dbPrice], ?_, ?_, ?_⟩, hk2, ?_⟩
  · intro x hx
    simp only [dbPrice, List.mem_cons, List.not_mem_nil, or_false] at hx
    rcases hx with rfl | rfl
    · norm_num [addonA]
    · norm_num [addonB]
  · rw [show carMultiplierOf dbPrice inputNone.car_type = 1 from rfl]
    norm_num
  · exact C9_confirmed.1 dbPrice inputNone addonA resNone resOne (by simp [dbPrice])
      (by
        intro x hx
        simp only [dbPrice, List.mem_cons, List.not_mem_nil, or_false] at hx
        rcases hx with rfl | rfl
        · norm_num [addonA]
        · norm_num [addonB])
      (by
        rw [show carMultiplierOf dbPrice inputNone.car_type = 1 from rfl]
        norm_num)
      calcPrice_dbPrice_none calcPrice_dbPrice_one
  · exact C9_confirmed.2 (distFeePayloadCode 5 3 50) 2 3 hk2 (by norm_num)

/-! ## Claim C8 -/

/-- A malformed geometry never matches: every branch of the dispatch fails
closed. -/
lemma malformedGeo_not_match (lat lng : ℚ) (g : Option Json) (hg : MalformedGeo g) :
    isLocationInZone lat lng g = false := by
  cases g with
  | none => rfl
  | some j =>
    obtain ⟨hc, hp⟩ := hg
    simp only [isLocationInZone]
    by_cases ht : j.typeIs "center" = true
    · rw [if_pos ht]
      cases hlat : j.numField "lat" with
      | none => rfl
      | some qlat =>
        cases hlng : j.numField "lng" with
        | none => rfl
        | some qlng => exact absurd ⟨ht, ⟨qlat, hlat⟩, ⟨qlng, hlng⟩⟩ hc
    · rw [if_neg ht]
      by_cases hpc : (j.typeIs "polygon" && j.fieldTruthy "coordinates") = true
      · simp only [Bool.and_eq_true] at hpc
        exact absurd ⟨hpc.1, hpc.2⟩ hp
      · rw [if_neg hpc]

/-- Zone iteration simply skips a zone with malformed geometry. -/
lemma findZoneLoop_skip (lat lng : ℚ) (zs1 zs2 : List Zone) (z : Zone)
    (hz : MalformedGeo z.polygon_or_center) :
    findZoneLoop lat lng (zs1 ++ z :: zs2) = findZoneLoop lat lng (zs1 ++ zs2) := by
  induction zs1 with
  | nil =>
    show findZoneLoop lat lng (z :: zs2) = findZoneLoop lat lng zs2
    simp only [findZoneLoop]
    rw [malformedGeo_not_match lat lng z.polygon_or_center hz]
    simp
  | cons zh zt ih =>
    show findZoneLoop lat lng (zh :: (zt ++ z :: zs2)) = findZoneLoop lat lng (zh :: (zt ++ zs2))
    simp only [findZoneLoop]
    by_cases hzh : isLocationInZone lat lng zh.polygon_or_center = true
    · rw [if_pos hzh, if_pos hzh]
    · rw [if_neg hzh, if_neg hzh]
      exact ih

/--
C8: zone resolution never matches a zone whose geometry is unparseable or
conforms to neither geometry shape (it fails closed, and in this total
model nothing can be thrown), and resolution continues across the
remaining zones exactly as if the malformed zone were absent.
-/
theorem C8_confirmed :
    (∀ (lat lng : ℚ) (g : Option Json),
        MalformedGeo g → isLocationInZone lat lng g = false) ∧
      (∀ (lat lng : ℚ) (zs1 zs2 : List Zone) (z : Zone),
        MalformedGeo z.polygon_or_center →
        findZoneLoop lat lng (zs1 ++ z :: zs2) = findZoneLoop lat lng (zs1 ++ zs2)) :=
  ⟨malformedGeo_not_match, findZoneLoop_skip⟩

/-- Evaluation of one ray-casting step on two fully numeric vertices. -/
lemma rayCastStep_vtx (lat lng : ℚ) (inside : Bool) (a b c d : ℚ) :
    rayCastStep lat lng inside (vtx a b) (vtx c d) =
      if (¬ ((lat < a) ↔ (lat < c))) ∧ lng < (d - b) * (lat - a) / (c - a) + b then !inside
      else inside := rfl

/-- The spec's interior point is inside the rectangle by ray casting. -/
lemma rect_raycast :
    isPointInPolygonJ (264357/10000) (501088/10000)
      [vtx (264207/10000) (500888/10000), vtx (264207/10000) (501288/10000),
       vtx (264507/10000) (501288/10000), vtx (264507/10000) (500888/10000)] = true := by
  show rayCastStep (264357/10000) (501088/10000)
      (rayCastStep (264357/10000) (501088/10000)
        (rayCastStep (264357/10000) (501088/10000)
          (rayCastStep (264357/10000) (501088/10000) false
            (vtx (264207/10000) (500888/10000)) (vtx (264507/10000) (500888/10000)))
          (vtx (264207/10000) (501288/10000)) (vtx (264207/10000) (500888/10000)))
        (vtx (264507/10000) (501288/10000)) (vtx (264207/10000) (501288/10000)))
      (vtx (264507/10000) (500888/10000)) (vtx (264507/10000) (501288/10000)) = true
  simp only [rayCastStep_vtx]
  norm_num

/-- The rectangle zone's geometry matches the spec's interior point. -/
lemma zonePoly_match :
    isLocationInZone (264357/10000) (501088/10000) zonePoly.polygon_or_center = true := by
  show isLocationInZone (264357/10000) (501088/10000) (some polyRect) = true
  have ht : polyRect.typeIs "center" = false := rfl
  have hpc : (polyRect.typeIs "polygon" && polyRect.fieldTruthy "coordinates") = true := rfl
  have hco : polyRect.lookup "coordinates" = some (.arr
      [vtx (264207/10000) (500888/10000), vtx (264207/10000) (501288/10000),
       vtx (264507/10000) (501288/10000), vtx (264507/10000) (500888/10000)]) := rfl
  simp only [isLocationInZone]
  rw [if_neg (by rw [ht]; simp), if_pos hpc, hco]
  exact rect_raycast

/-- Witness for `C8_confirmed`: an unparseable zone followed by the
rectangle zone — the bad zone is skipped and the rectangle zone is
resolved. -/
theorem C8_witness :
    MalformedGeo zoneA.polygon_or_center ∧
      isLocationInZone (264357/10000) (501088/10000) zoneA.polygon_or_center = false ∧
      findZoneLoop (264357/10000) (501088/10000) [zoneA, zonePoly] = some zonePoly := by
  refine ⟨trivial, C8_confirmed.1 (264357/10000) (501088/10000) zoneA.polygon_or_center
    trivial, ?_⟩
  have hskip : findZoneLoop (264357/10000) (501088/10000) [zoneA, zonePoly] =
      findZoneLoop (264357/10000) (501088/10000) [zonePoly] :=
    C8_confirmed.2 (264357/10000) (501088/10000) [] [zonePoly] zoneA trivial
  rw [hskip]
  simp only [findZoneLoop]
  rw [if_pos zonePoly_match]

/-! ## Claim C3 -/

/-- Unfolding of the center-geometry match: the accepted radius is the
stored `radius` field, with `10` substituted when it is `0` (falsy) —
and, though `centerGeo` always carries the field, when it is absent. -/
lemma isLocationInZone_centerGeo (clat clng r plat plng : ℚ) :
    isLocationInZone plat plng (some (centerGeo clat clng r)) =
      decide (calculateDistance ↑plat ↑plng ↑clat ↑clng ≤
        (((if r = 0 then 10 else r) : ℚ) : ℝ)) := by
  have ht : (centerGeo clat clng r).typeIs "center" = true := rfl
  have hlat : (centerGeo clat clng r).numField "lat" = some clat := rfl
  have hlng : (centerGeo clat clng r).numField "lng" = some clng := rfl
  have hrad : (centerGeo clat clng r).numField "radius" = some r := rfl
  have hnum : (centerGeo clat clng r).numOr "radius" 10 = if r = 0 then 10 else r := by
    unfold Json.numOr
    rw [hrad]
  simp only [isLocationInZone]
  rw [if_pos ht, hlat, hlng, hnum]

/-- Evaluation of the haversine `a` for a pure-latitude offset of 0.05°
from the origin. -/
lemma havA_eval :
    havA (1/20) 0 0 0 = Real.sin (Real.pi/7200) * Real.sin (Real.pi/7200) := by
  unfold havA toRadians
  have e1 : ((0:ℝ) - 1/20) * (Real.pi / 180) / 2 = -(Real.pi/7200) := by ring
  have e2 : ((0:ℝ) - 0) * (Real.pi / 180) / 2 = 0 := by ring
  rw [e1, e2, Real.sin_zero, Real.sin_neg]
  ring

/-- The haversine distance of a pure-latitude offset of 0.05° from the
origin: `6371 * 2 * (π / 7200)` km (about 5.56 km). -/
lemma calculateDistance_small :
    calculateDistance (1/20) 0 0 0 = 6371 * (2 * (Real.pi / 7200)) := by
  have hy0 : (0:ℝ) ≤ Real.pi / 7200 := by positivity
  have hyp : Real.pi / 7200 ≤ Real.pi := by linarith [Real.pi_pos]
  have hy2 : Real.pi / 7200 < Real.pi / 2 := by linarith [Real.pi_pos]
  have hsin : (0:ℝ) ≤ Real.sin (Real.pi/7200) :=
    Real.sin_nonneg_of_nonneg_of_le_pi hy0 hyp
  have hcos : (0:ℝ) < Real.cos (Real.pi/7200) :=
    Real.cos_pos_of_mem_Ioo ⟨by linarith [Real.pi_pos], hy2⟩
  unfold calculateDistance
  rw [havA_eval, Real.sqrt_mul_self hsin]
  have h1 : (1:ℝ) - Real.sin (Real.pi/7200) * Real.sin (Real.pi/7200) =
      Real.cos (Real.pi/7200) * Real.cos (Real.pi/7200) := by
    have h := Real.sin_sq_add_cos_sq (Real.pi/7200)
    rw [pow_two, pow_two] at h
    linarith
  rw [h1, Real.sqrt_mul_self hcos.le]
  unfold atan2
  rw [if_pos hcos, ← Real.tan_eq_sin_div_cos,
    Real.arctan_tan (by linarith [Real.pi_pos]) hy2]

/--
C3 counterexample. For the center geometry `(lat 0, lng 0)` with stored
radius value `0`, the point `0.05°` of latitude away (haversine distance
`6371·2π/7200 ≈ 5.56 km > 0`) is *matched* by `isLocationInZone`: the
code's `geoData.radius || 10` treats the radius `0` (and likewise a
missing radius) as falsy and substitutes a 10 km default, while the claim
says a point is matched only within the stored radius.
-/
theorem C3_counterexample :
    ¬ (isLocationInZone (1/20) 0 (some (centerGeo 0 0 0)) = true ↔
        calculateDistance ((1/20 : ℚ) : ℝ) ((0 : ℚ) : ℝ) ((0 : ℚ) : ℝ) ((0 : ℚ) : ℝ) ≤
          ((0 : ℚ) : ℝ)) := by
  have hc : ((1/20 : ℚ) : ℝ) = (1/20 : ℝ) := by norm_num
  have hc0 : ((0 : ℚ) : ℝ) = (0 : ℝ) := by norm_num
  intro h
  have hloc : isLocationInZone (1/20) 0 (some (centerGeo 0 0 0)) = true := by
    rw [isLocationInZone_centerGeo, decide_eq_true_iff]
    rw [if_pos rfl, hc, hc0, calculateDistance_small]
    have := Real.pi_lt_d2
    norm_num
    nlinarith
  have hd := h.mp hloc
  rw [hc, hc0, calculateDistance_small] at hd
  nlinarith [Real.pi_pos]

/--
C3 (amended): for a center geometry carrying numeric `lat`, `lng` and a
stored `radius` field, `isLocationInZone` matches a point iff the
haversine distance (Earth radius 6371 km) from the point to the center is
at most the stored radius — except that a radius of `0` (falsy in JS, like
an absent radius) is replaced by the 10 km default. The stored key is
`radius`, not the spec's `radius_km`.
-/
theorem C3_amended (clat clng r plat plng : ℚ) :
    isLocationInZone plat plng (some (centerGeo clat clng r)) = true ↔
      calculateDistance ↑plat ↑plng ↑clat ↑clng ≤
        (if r = 0 then (10 : ℝ) else (r : ℝ)) := by
  rw [isLocationInZone_centerGeo, decide_eq_true_iff]
  rw [show (((if r = 0 then 10 else r) : ℚ) : ℝ) = (if r = 0 then (10 : ℝ) else (r : ℝ)) by
    split_ifs <;> norm_num]

end CarWash
